import Mathlib

/-!
Shallow embedding of `src/emailService.py` (Macktireh/EmailSender):
`EmailServiceSettings`, `SMTPEmailService` (fluent message builder plus
SMTP transmission) and `IMAPEmailService` (scoped mailbox session).
External collaborators (smtplib, imaplib, the `email` MIME library,
mailparser, the filesystem) are modelled by their documented observable
behaviour; everything under the `EmailSender` namespace that carries a
source name is translated from the Python source.
-/

namespace EmailSender

/-- Python exceptions that the modelled code can raise or propagate. -/
inductive PyErr where
  | valueError (msg : String)
  | keyError (key : String)
  | connectionError (msg : String)
  | imapError (msg : String)
  | smtpException (msg : String)
  | osError (msg : String)
  deriving DecidableEq, Repr

/-- Equality of modelled call results is decidable. -/
instance {ε α : Type} [DecidableEq ε] [DecidableEq α] :
    DecidableEq (Except ε α) := fun a b =>
  match a, b with
  | .ok x, .ok y =>
      if h : x = y then isTrue (by rw [h])
      else isFalse (fun hh => h (by cases hh; rfl))
  | .error x, .error y =>
      if h : x = y then isTrue (by rw [h])
      else isFalse (fun hh => h (by cases hh; rfl))
  | .ok _, .error _ => isFalse (fun hh => Except.noConfusion hh)
  | .error _, .ok _ => isFalse (fun hh => Except.noConfusion hh)

/-- Primitive Python values that can be passed as the `dev_mode` argument
(`Union[int, str, bool]` in the source annotation). -/
inductive PyPrim where
  | int (n : Int)
  | str (s : String)
  | bool (b : Bool)
  deriving DecidableEq, Repr

/-- Python `==` on these primitives: `True == 1`, `False == 0`, numbers
never equal strings. -/
def pyEq : PyPrim → PyPrim → Bool
  | .int n, .int m => n == m
  | .int n, .bool b => n == (if b then 1 else 0)
  | .bool b, .int m => (if b then (1 : Int) else 0) == m
  | .bool a, .bool b => a == b
  | .str a, .str b => a == b
  | .str _, .int _ => false
  | .str _, .bool _ => false
  | .int _, .str _ => false
  | .bool _, .str _ => false

/-- Whether a character is stripped by Python `int(s)`. -/
def isPySpace (c : Char) : Bool :=
  c = ' ' ∨ c = '\t' ∨ c = '\n' ∨ c = '\r'

/-- Strip leading and trailing whitespace from a character list. -/
def stripChars (cs : List Char) : List Char :=
  ((cs.dropWhile isPySpace).reverse.dropWhile isPySpace).reverse

/-- Accumulate a decimal digit run; any non-digit character fails. -/
def parseDigitsAux : List Char → Nat → Option Nat
  | [], n => some n
  | c :: rest, n =>
      if 48 ≤ c.toNat ∧ c.toNat ≤ 57 then
        parseDigitsAux rest (n * 10 + (c.toNat - 48))
      else none

/-- A nonempty decimal digit run. -/
def parseDigits : List Char → Option Nat
  | [] => none
  | cs => parseDigitsAux cs 0

/-- Python `int(s)` on a string: strips surrounding whitespace, then an
optional sign followed by a nonempty digit run; anything else raises
`ValueError` (modelled as `none`). Digit-group underscores are not
modelled; no claim depends on them. -/
def pyIntOfString (s : String) : Option Int :=
  match stripChars s.toList with
  | '-' :: rest => (parseDigits rest).map (fun n => -(n : Int))
  | '+' :: rest => (parseDigits rest).map (fun n => (n : Int))
  | cs => (parseDigits cs).map (fun n => (n : Int))

/-- The record the constructor produces when it succeeds. -/
structure EmailServiceSettings where
  username : String
  password : String
  server : String
  port : Int
  dev_mode : Bool
  deriving DecidableEq, Repr

/-- The `port` argument is annotated `Union[int, str]` in the source. -/
inductive PortArg where
  | int (n : Int)
  | str (s : String)
  deriving DecidableEq, Repr

/-- The literal list `truly = [1, "1", True, "True", "true"]` from
`EmailServiceSettings.__init__`. -/
def trulyList : List PyPrim :=
  [.int 1, .str "1", .bool true, .str "True", .str "true"]

/-- `self.dev_mode = True if dev_mode in truly else False`; Python `in`
tests membership with `==`. -/
def devModeOf (v : PyPrim) : Bool :=
  trulyList.any (fun t => pyEq v t)

/-- `EmailServiceSettings.__init__`: sets `dev_mode` from the truthy-token
list, copies the credential fields, and accepts the port if it is an `int`
or an `int(...)`-coercible string, raising `ValueError` otherwise. -/
def EmailServiceSettings.init (username password server : String)
    (port : PortArg) (dev_mode : PyPrim) : Except PyErr EmailServiceSettings :=
  let dm := devModeOf dev_mode
  match port with
  | .int n =>
      .ok { username := username, password := password, server := server,
            port := n, dev_mode := dm }
  | .str s =>
      match pyIntOfString s with
      | some n =>
          .ok { username := username, password := password, server := server,
                port := n, dev_mode := dm }
      | none => .error (.valueError "Port must be an integer or string-int.")

/-! MIME model. The `email.mime` library is modelled by its documented
observable behaviour: a message holds an ordered header list (duplicates
allowed) and an ordered payload list of attached parts. Because the
iteration order of a Python `set` is unspecified, a recipient header whose
value the source builds as a comma-join of a set is modelled as carrying
the address set itself: the join emits each element of the set exactly
once, in an unspecified order. -/

/-- A header value: a plain string, or a comma-joined address set. -/
inductive HVal where
  | str (s : String)
  | addrs (a : Finset String)
  deriving DecidableEq

/-- A MIME part attached to the multipart container: an HTML/text body
part (`MIMEText`) or a binary attachment (`MIMEApplication`). -/
inductive Part where
  | text (body : String) (subtype : String) (charset : String)
  | application (data : String) (subtype : String) (filename : String)
  deriving DecidableEq

/-- Whether a payload part is a text (body) part. -/
def Part.isText : Part → Bool
  | .text _ _ _ => true
  | .application _ _ _ => false

/-- The multipart container `self._msg`. -/
structure MIMEMultipart where
  headers : List (String × HVal)
  payload : List Part
  deriving DecidableEq

/-- ASCII lower-casing of one character. -/
def lowerChar (c : Char) : Char :=
  if 65 ≤ c.toNat ∧ c.toNat ≤ 90 then Char.ofNat (c.toNat + 32) else c

/-- Header-name comparison in the `email` library is case-insensitive. -/
def hdrEq (a b : String) : Bool :=
  a.toList.map lowerChar == b.toList.map lowerChar

/-- `name in msg`. -/
def MIMEMultipart.containsHdr (m : MIMEMultipart) (name : String) : Bool :=
  m.headers.any (fun p => hdrEq p.1 name)

/-- `msg.add_header(name, value)`: appends a new header line. -/
def MIMEMultipart.add_header (m : MIMEMultipart) (name : String) (v : HVal) :
    MIMEMultipart :=
  { m with headers := m.headers ++ [(name, v)] }

/-- Replace the first header line named `name` (helper for
`replace_header`). -/
def replaceFirstHdr : List (String × HVal) → String → HVal → List (String × HVal)
  | [], _, _ => []
  | p :: rest, name, v =>
      if hdrEq p.1 name then (p.1, v) :: rest
      else p :: replaceFirstHdr rest name v

/-- `msg.replace_header(name, value)`: replaces the first matching header
line, raising `KeyError` when no header of that name exists. -/
def MIMEMultipart.replace_header (m : MIMEMultipart) (name : String) (v : HVal) :
    Except PyErr MIMEMultipart :=
  if m.containsHdr name then .ok { m with headers := replaceFirstHdr m.headers name v }
  else .error (.keyError name)

/-- `msg.attach(part)`: appends to the payload (append-only). -/
def MIMEMultipart.attach (m : MIMEMultipart) (p : Part) : MIMEMultipart :=
  { m with payload := m.payload ++ [p] }

/-- Number of header lines with the given name. -/
def MIMEMultipart.countHdr (m : MIMEMultipart) (name : String) : Nat :=
  (m.headers.filter (fun p => hdrEq p.1 name)).length

/-- Number of text (body) parts in the payload. -/
def MIMEMultipart.textPartCount (m : MIMEMultipart) : Nat :=
  (m.payload.filter Part.isText).length

/-- `MIMEMultipart()` followed by `set_type("multipart/alternative")`:
the constructor writes `Content-Type` and `MIME-Version`, and `set_type`
replaces the `Content-Type` value. No other header exists initially. -/
def MIMEMultipart.fresh : MIMEMultipart :=
  { headers := [("Content-Type", .str "multipart/alternative"),
                ("MIME-Version", .str "1.0")],
    payload := [] }

/-! SMTP builder and transmitter. -/

/-- The builder state of `SMTPEmailService`. `_original_msg_body` is a
`MIMEText("")` object at construction and is overwritten with the raw body
string by `body()`; it is only ever printed, so it is modelled as the
string payload. -/
structure SMTPEmailService where
  settings : EmailServiceSettings
  _subject : String
  _original_msg_body : String
  _msg_body : Part
  _original_sender : String
  _reply_to : String
  _from : String
  _recipients : Finset String
  _cc_recipients : Finset String
  _bcc_recipients : Finset String
  _attachments : Finset (String × String)
  _msg : MIMEMultipart
  deriving DecidableEq

/-- `SMTPEmailService.__init__`. -/
def SMTPEmailService.init (settings : EmailServiceSettings) : SMTPEmailService :=
  { settings := settings,
    _subject := "",
    _original_msg_body := "",
    _msg_body := .text "" "text/plain" "us-ascii",
    _original_sender := settings.username,
    _reply_to := settings.username,
    _from := settings.username,
    _recipients := ∅,
    _cc_recipients := ∅,
    _bcc_recipients := ∅,
    _attachments := ∅,
    _msg := MIMEMultipart.fresh }

/-- `subject()`: replaces the subject-of-record, returns `self`. -/
def SMTPEmailService.subject (svc : SMTPEmailService) (subject : String) :
    SMTPEmailService :=
  { svc with _subject := subject }

/-- `body()`: records the raw body, builds a `text/html`, UTF-8 `MIMEText`
part and attaches it to the (append-only) container; returns `self`. -/
def SMTPEmailService.body (svc : SMTPEmailService) (body : String) :
    SMTPEmailService :=
  let part := Part.text body "text/html" "UTF-8"
  { svc with _original_msg_body := body,
             _msg_body := part,
             _msg := svc._msg.attach part }

/-- `reply_to()`: calls `replace_header("Reply-To", ...)` on the container
(which raises `KeyError` when no `Reply-To` header line exists yet). The
`_reply_to` field is not updated by this method. -/
def SMTPEmailService.reply_to (svc : SMTPEmailService) (reply_to : String) :
    Except PyErr SMTPEmailService :=
  (svc._msg.replace_header "Reply-To" (.str reply_to)).map
    (fun m => { svc with _msg := m })

/-- `from_()`: replaces the `_from` field, returns `self`. -/
def SMTPEmailService.from_ (svc : SMTPEmailService) (from_ : String) :
    SMTPEmailService :=
  { svc with _from := from_ }

/-- `recipients()`: unions the given list into the recipient set, then
writes the comma-joined set as the single `To` header (replace when
present, add otherwise); returns `self`. -/
def SMTPEmailService.recipients (svc : SMTPEmailService)
    (recipients : List String) : SMTPEmailService :=
  let rs := svc._recipients ∪ recipients.toFinset
  let m :=
    if svc._msg.containsHdr "To" then
      { svc._msg with headers := replaceFirstHdr svc._msg.headers "To" (.addrs rs) }
    else svc._msg.add_header "To" (.addrs rs)
  { svc with _recipients := rs, _msg := m }

/-- `cc_recipients()`: same shape as `recipients()` for the `CC` header. -/
def SMTPEmailService.cc_recipients (svc : SMTPEmailService)
    (cc_recipients : List String) : SMTPEmailService :=
  let rs := svc._cc_recipients ∪ cc_recipients.toFinset
  let m :=
    if svc._msg.containsHdr "CC" then
      { svc._msg with headers := replaceFirstHdr svc._msg.headers "CC" (.addrs rs) }
    else svc._msg.add_header "CC" (.addrs rs)
  { svc with _cc_recipients := rs, _msg := m }

/-- `bcc_recipients()`: same shape as `recipients()` for the `BCC`
header. -/
def SMTPEmailService.bcc_recipients (svc : SMTPEmailService)
    (bcc_recipients : List String) : SMTPEmailService :=
  let rs := svc._bcc_recipients ∪ bcc_recipients.toFinset
  let m :=
    if svc._msg.containsHdr "BCC" then
      { svc._msg with headers := replaceFirstHdr svc._msg.headers "BCC" (.addrs rs) }
    else svc._msg.add_header "BCC" (.addrs rs)
  { svc with _bcc_recipients := rs, _msg := m }

/-- The filesystem seen by `attach_files`: `none` means the path does not
exist, `some contents` means it exists and `read_bytes()` yields
`contents`. -/
def FileSystem : Type := String → Option String

/-- `attach_files()`: per path, records `(path, Exists | Missing)` in the
attachment set; when the file exists, attaches a binary part tagged with
the path's extension and a `Content-Disposition: attachment` filename;
returns `self`. -/
def SMTPEmailService.attach_files (svc : SMTPEmailService) (fs : FileSystem)
    (files : List String) : SMTPEmailService :=
  files.foldl
    (fun acc file =>
      match fs file with
      | some contents =>
          { acc with
            _attachments := acc._attachments ∪ {(file, "Exists")},
            _msg := acc._msg.attach (.application contents file file) }
      | none =>
          { acc with _attachments := acc._attachments ∪ {(file, "Missing")} })
    svc

/-- `attach_file()`: delegates to `attach_files` on a one-element list. -/
def SMTPEmailService.attach_file (svc : SMTPEmailService) (fs : FileSystem)
    (file : String) : SMTPEmailService :=
  svc.attach_files fs [file]

/-- Network operations `send()` can perform against the SMTP stack. -/
inductive NetOp where
  | connect
  | starttls
  | login
  | sendmail
  deriving DecidableEq, Repr

/-- The transport environment: for each operation, `none` means it
succeeds and `some e` means it raises `e` (an `SMTPException`-family
error, or an OS/socket/TLS-level error outside that family). -/
structure SMTPTransport where
  connect : Option PyErr
  starttls : Option PyErr
  login : Option PyErr
  sendmail : Option PyErr

/-- Run the four transport operations in order, stopping at the first
failure; returns the operations attempted and the error, if any. -/
def runTransport (t : SMTPTransport) : List NetOp × Option PyErr :=
  match t.connect with
  | some e => ([.connect], some e)
  | none =>
    match t.starttls with
    | some e => ([.connect, .starttls], some e)
    | none =>
      match t.login with
      | some e => ([.connect, .starttls, .login], some e)
      | none =>
        match t.sendmail with
        | some e => ([.connect, .starttls, .login, .sendmail], some e)
        | none => ([.connect, .starttls, .login, .sendmail], none)

/-- The header finalisation prefix of `send()`: four `add_header` calls
(append-only) for the singleton headers. -/
def SMTPEmailService.finalizeHeaders (svc : SMTPEmailService) : SMTPEmailService :=
  let m := ((((svc._msg.add_header "Original-Sender" (.str svc._original_sender)
               ).add_header "Reply-To" (.str svc._reply_to)
               ).add_header "From" (.str svc._from)
               ).add_header "Subject" (.str svc._subject))
  { svc with _msg := m }

/-- `send()`: finalises headers; in dev mode prints and returns `True`
without touching the transport; otherwise runs the transport session under
`try/except SMTPException`, returning `False` when an `SMTPException` is
caught and `True` on success. An error outside the `SMTPException` family
is not caught and propagates. The result carries the mutated builder, the
boolean, and the network operations performed. -/
def SMTPEmailService.send (svc : SMTPEmailService) (t : SMTPTransport)
    (debug : Bool) : Except PyErr (SMTPEmailService × Bool × List NetOp) :=
  let _ := debug
  let svc' := svc.finalizeHeaders
  if svc.settings.dev_mode then
    .ok (svc', true, [])
  else
    match runTransport t with
    | (ops, none) => .ok (svc', true, ops)
    | (ops, some e) =>
      match e with
      | .smtpException _ => .ok (svc', false, ops)
      | _ => .error e

/-! IMAP model. `imaplib.IMAP4_SSL` is an external collaborator; its
documented state machine is modelled: a connection is in state NONAUTH,
AUTH, SELECTED or LOGOUT, `SELECT` is legal in AUTH/SELECTED,
`SEARCH`/`FETCH`/`STORE`/`CLOSE` are legal only in SELECTED, and a command
issued in an illegal state raises `imaplib.IMAP4.error`. A live
`IMAP4_SSL` object is always truthy in Python. -/

/-- The imaplib connection states. -/
inductive IMAPState where
  | NONAUTH
  | AUTH
  | SELECTED
  | LOGOUT
  deriving DecidableEq, Repr

/-- The connection handle `self.connection`, reduced to its protocol
state. -/
structure IMAP4SSL where
  state : IMAPState
  deriving DecidableEq, Repr

/-- One fetched response item: imaplib returns a list whose items are
tuples `(envelope, raw_bytes)` or bare bytes/strings. -/
inductive FetchItem where
  | tup (meta : String) (raw : String)
  | other (s : String)
  deriving DecidableEq, Repr

/-- The mailbox contents and server replies seen during a session:
`searchData` is `data[0].split()` for `SEARCH ALL`, `fetch` gives the
response list per message number, `storeReply` is the server's reply to
`STORE` (which the facade never inspects). -/
structure IMAPEnv where
  searchData : List String
  fetch : String → List FetchItem
  storeReply : String

/-- `connection.select(mailbox)`: legal in AUTH or SELECTED, moves to
SELECTED; raises in any other state. -/
def IMAP4SSL.selectCmd (c : IMAP4SSL) : Except PyErr IMAP4SSL :=
  if c.state = .AUTH ∨ c.state = .SELECTED then .ok { state := .SELECTED }
  else .error (.imapError "command SELECT illegal in current state")

/-- `connection.search(None, "ALL")`: legal only in SELECTED. -/
def IMAP4SSL.searchCmd (c : IMAP4SSL) (env : IMAPEnv) :
    Except PyErr (List String) :=
  if c.state = .SELECTED then .ok env.searchData
  else .error (.imapError "command SEARCH illegal in current state")

/-- `connection.fetch(num, "(RFC822)")`: legal only in SELECTED. -/
def IMAP4SSL.fetchCmd (c : IMAP4SSL) (env : IMAPEnv) (num : String) :
    Except PyErr (List FetchItem) :=
  if c.state = .SELECTED then .ok (env.fetch num)
  else .error (.imapError "command FETCH illegal in current state")

/-- `connection.store(message_set, command, flags)`: legal only in
SELECTED; the server's reply is returned (and ignored by the caller). -/
def IMAP4SSL.storeCmd (c : IMAP4SSL) (env : IMAPEnv)
    (message_set command flags : String) : Except PyErr String :=
  let _ := (message_set, command, flags)
  if c.state = .SELECTED then .ok env.storeReply
  else .error (.imapError "command STORE illegal in current state")

/-- The parsed-mail object is a black box (external RFC-822 parser); the
model retains the raw bytes it was built from. -/
structure MailParser where
  raw : String
  deriving DecidableEq, Repr

/-- `mailparser.parse_from_bytes`, as a black box. -/
def parse_from_bytes (raw : String) : MailParser := ⟨raw⟩

/-- The facade object: `connection` is the class-level `None` until
`__enter__` assigns a handle, and keeps the (logged-out) handle after
`__exit__`; `parsed_emails` accumulates across `get_inbox` calls. -/
structure IMAPEmailService where
  settings : EmailServiceSettings
  timeout : Int
  connection : Option IMAP4SSL
  parsed_emails : List (String × MailParser)

/-- `IMAPEmailService.__init__`: no connection yet, empty accumulator. -/
def IMAPEmailService.init (settings : EmailServiceSettings)
    (timeout : Int := 120) : IMAPEmailService :=
  { settings := settings, timeout := timeout, connection := none,
    parsed_emails := [] }

/-- `store()`: when `self.connection` is truthy, issues the channel STORE
and returns `True` without inspecting the reply; otherwise raises
`ConnectionError`. -/
def IMAPEmailService.store (svc : IMAPEmailService) (env : IMAPEnv)
    (message_set command flags : String) : Except PyErr Bool :=
  match svc.connection with
  | some conn =>
      (conn.storeCmd env message_set command flags).map (fun _ => true)
  | none =>
      .error (.connectionError
        "IMAP connection not established. Use with statement.")

/-- The fetch loop of `get_inbox`: for each number, fetch; `if resp:` then
take `resp[0]`, and when it is a tuple, parse its raw bytes and append. -/
def fetchLoop (conn : IMAP4SSL) (env : IMAPEnv) :
    List String → List (String × MailParser) →
    Except PyErr (List (String × MailParser))
  | [], acc => .ok acc
  | num :: rest, acc =>
      match conn.fetchCmd env num with
      | .error e => .error e
      | .ok resp =>
          let acc' :=
            match resp with
            | [] => acc
            | (.tup _ raw) :: _ => acc ++ [(num, parse_from_bytes raw)]
            | (.other _) :: _ => acc
          fetchLoop conn env rest acc'

/-- `get_inbox()`: when `self.connection` is truthy, selects INBOX,
searches ALL, fetches each number and appends the parsed mails to the
session accumulator, returning it; otherwise raises `ConnectionError`. -/
def IMAPEmailService.get_inbox (svc : IMAPEmailService) (env : IMAPEnv) :
    Except PyErr (IMAPEmailService × List (String × MailParser)) :=
  match svc.connection with
  | some conn =>
      match conn.selectCmd with
      | .error e => .error e
      | .ok conn' =>
          match conn'.searchCmd env with
          | .error e => .error e
          | .ok listed =>
              match fetchLoop conn' env listed svc.parsed_emails with
              | .error e => .error e
              | .ok parsed =>
                  .ok ({ svc with connection := some conn',
                                  parsed_emails := parsed }, parsed)
  | none =>
      .error (.connectionError
        "IMAP connection not established. Use with statement.")

/-- Channel operations observable at session exit. -/
inductive ChannelOp where
  | close
  | logout
  deriving DecidableEq, Repr

/-- `__exit__`: if the connection state is SELECTED, `close()` first; then
`logout()` unconditionally. Returns the trace of channel operations. -/
def imapExitOps (c : IMAP4SSL) : List ChannelOp :=
  (if c.state = .SELECTED then [ChannelOp.close] else []) ++ [ChannelOp.logout]

/-- The outcome of the body of a `with` statement: a normal value or an
uncaught exception. -/
inductive BodyOutcome (α : Type) where
  | ok (a : α)
  | exn (e : PyErr)

/-- Python `with IMAPEmailService(...) as service:` semantics after a
successful `__enter__`: run the body, then run `__exit__` on the
connection the body left behind — on the normal path and on the
exceptional path alike. The result pairs the body's outcome with the
trace of channel operations (body trace, then exit trace). -/
def runWithSession {α : Type} (conn : IMAP4SSL)
    (body : IMAP4SSL → BodyOutcome α × IMAP4SSL × List ChannelOp) :
    BodyOutcome α × List ChannelOp :=
  match body conn with
  | (r, c2, tr) => (r, tr ++ imapExitOps c2)

/-- Whether an error is a connection-state error: the facade's own
`ConnectionError`, or the channel's illegal-state `IMAP4.error`. -/
def PyErr.isConnStateError : PyErr → Bool
  | .connectionError _ => true
  | .imapError _ => true
  | _ => false

/-- Whether a call raised a connection-state error. -/
def isConnStateFailure {α : Type} : Except PyErr α → Bool
  | .error e => e.isConnStateError
  | .ok _ => false

/-! Concrete fixtures used by witnesses and concrete evaluations. -/

/-- Settings with `dev_mode = True`. -/
def settingsDev : EmailServiceSettings :=
  { username := "u@example.com", password := "pw", server := "smtp.example.com",
    port := 587, dev_mode := true }

/-- Settings with `dev_mode = False`. -/
def settingsProd : EmailServiceSettings :=
  { username := "u@example.com", password := "pw", server := "smtp.example.com",
    port := 587, dev_mode := false }

/-- A transport on which every operation succeeds. -/
def idleTransport : SMTPTransport :=
  { connect := none, starttls := none, login := none, sendmail := none }

/-- A transport whose TCP connect raises `ConnectionRefusedError` (an
`OSError`, outside the `SMTPException` family). -/
def refusedTransport : SMTPTransport :=
  { connect := some (.osError "Connection refused"),
    starttls := none, login := none, sendmail := none }

/-- A transport whose login raises `SMTPAuthenticationError` (inside the
`SMTPException` family). -/
def authRejectTransport : SMTPTransport :=
  { connect := none, starttls := none,
    login := some (.smtpException "auth rejected"), sendmail := none }

/-- An empty mailbox environment. -/
def imapEnv0 : IMAPEnv :=
  { searchData := [], fetch := fun _ => [], storeReply := "OK" }

/-- A facade whose session is open with INBOX selected. -/
def openSvc : IMAPEmailService :=
  { settings := settingsProd, timeout := 120,
    connection := some ⟨IMAPState.SELECTED⟩, parsed_emails := [] }

/-! Claims. -/

/-- C9: `EmailServiceSettings` sets the `dev_mode` flag to true exactly
when the input is one of the tokens `1`, `"1"`, `True`, `"True"`,
`"true"` (under Python equality, where `True == 1`), and to false for
every other input. -/
theorem c9_dev_mode_tokens (v : PyPrim) :
    devModeOf v = true ↔
      (v = .int 1 ∨ v = .str "1" ∨ v = .bool true ∨
       v = .str "True" ∨ v = .str "true") := by
  cases v with
  | int n =>
      simp [devModeOf, trulyList, pyEq]
  | str s =>
      simp [devModeOf, trulyList, pyEq]
  | bool b =>
      cases b <;> simp [devModeOf, trulyList, pyEq]

/-- C7 counterexample: the constructor accepts the port string `"-7"`,
which is coercible to an integer but not to a positive one, so
construction does not succeed exactly when the port is coercible to a
positive integer. -/
theorem c7_nonpositive_port_accepted :
    EmailServiceSettings.init "u@example.com" "pw" "smtp.example.com"
        (.str "-7") (.bool false)
      = .ok { username := "u@example.com", password := "pw",
              server := "smtp.example.com", port := -7, dev_mode := false }
    ∧ ¬ ((-7 : Int) > 0) := by
  constructor
  · decide
  · decide

/-- C7 (amended): construction succeeds for every integer port and for
every string port coercible by `int(...)` to an integer — positivity is
not checked — raising `ValueError` for a non-coercible string; a string
port coercing to `n` yields the same settings as the integer port `n`. -/
theorem c7_port_coercion (u p srv : String) (dm : PyPrim) (s : String) (n : Int) :
    (∀ m : Int, EmailServiceSettings.init u p srv (.int m) dm
        = .ok { username := u, password := p, server := srv, port := m,
                dev_mode := devModeOf dm })
    ∧ (pyIntOfString s = some n →
        EmailServiceSettings.init u p srv (.str s) dm
          = EmailServiceSettings.init u p srv (.int n) dm)
    ∧ (pyIntOfString s = none →
        EmailServiceSettings.init u p srv (.str s) dm
          = .error (.valueError "Port must be an integer or string-int.")) := by
  refine ⟨fun m => rfl, fun h => ?_, fun h => ?_⟩ <;>
    simp [EmailServiceSettings.init, h]

/-- C7 witness: the string port `"587"` behaves like the integer port
`587`, and the non-numeric string `"abc"` raises `ValueError`. -/
theorem c7_port_coercion_witness :
    EmailServiceSettings.init "u" "pw" "host" (.str "587") (.bool true)
      = EmailServiceSettings.init "u" "pw" "host" (.int 587) (.bool true)
    ∧ EmailServiceSettings.init "u" "pw" "host" (.str "abc") (.bool true)
      = .error (.valueError "Port must be an integer or string-int.") :=
  ⟨(c7_port_coercion "u" "pw" "host" (.bool true) "587" 587).2.1 (by decide),
   (c7_port_coercion "u" "pw" "host" (.bool true) "abc" 0).2.2 (by decide)⟩

/-- C2: the claim that every mutator never raises fails on `reply_to`:
on a freshly constructed `SMTPEmailService` the container has no
`Reply-To` header line yet, so `replace_header` raises `KeyError`. -/
theorem c2_reply_to_raises_keyerror :
    (SMTPEmailService.init settingsDev).reply_to "reply@example.com"
      = .error (.keyError "Reply-To") := by
  decide

/-- C4: with `dev_mode` true, `send()` always returns `True` and performs
no network operation at all, for every transport and debug flag. -/
theorem c4_dev_mode_send (svc : SMTPEmailService) (t : SMTPTransport)
    (debug : Bool) (hdev : svc.settings.dev_mode = true) :
    svc.send t debug = .ok (svc.finalizeHeaders, true, []) := by
  simp [SMTPEmailService.send, hdev]

/-- C4 witness: a dev-mode send succeeds with an empty network trace even
on a transport that would refuse the connection. -/
theorem c4_dev_mode_send_witness :
    (SMTPEmailService.init settingsDev).send refusedTransport true
      = .ok ((SMTPEmailService.init settingsDev).finalizeHeaders, true, []) :=
  c4_dev_mode_send (SMTPEmailService.init settingsDev) refusedTransport true rfl

/-- C10: on an open session with a mailbox selected, `store()` returns
`True` for every server reply — the reply is never inspected. -/
theorem c10_store_ignores_reply (svc : IMAPEmailService) (env : IMAPEnv)
    (conn : IMAP4SSL) (ms cmd fl : String)
    (hc : svc.connection = some conn) (hs : conn.state = .SELECTED) :
    svc.store env ms cmd fl = .ok true := by
  simp [IMAPEmailService.store, hc, IMAP4SSL.storeCmd, hs, Except.map]

/-- C10 witness: `store` returns `True` even when the server's reply to
STORE is `"NO"`. -/
theorem c10_store_ignores_reply_witness :
    openSvc.store { searchData := [], fetch := fun _ => [], storeReply := "NO" }
        "1" "+FLAGS" "\\Seen" = .ok true :=
  c10_store_ignores_reply openSvc
    { searchData := [], fetch := fun _ => [], storeReply := "NO" }
    ⟨IMAPState.SELECTED⟩ "1" "+FLAGS" "\\Seen" rfl rfl

/-- A builder on which `body()` was called twice. -/
def c1Builder : SMTPEmailService :=
  ((SMTPEmailService.init settingsDev).body "a").body "b"

/-- C1: the claim fails on the code. Calling `body()` twice attaches two
text parts to the append-only container, and because `send()` finalises
the four singleton headers with `add_header`, a second `send()` leaves two
`Subject` (and two `Reply-To`) header lines — not exactly one part/value
reflecting the most recent call. -/
theorem c1_duplicate_body_parts_and_headers :
    c1Builder._msg.textPartCount = 2
    ∧ c1Builder.send idleTransport false
        = .ok (c1Builder.finalizeHeaders, true, [])
    ∧ c1Builder.finalizeHeaders._msg.countHdr "Subject" = 1
    ∧ c1Builder.finalizeHeaders.send idleTransport false
        = .ok (c1Builder.finalizeHeaders.finalizeHeaders, true, [])
    ∧ c1Builder.finalizeHeaders.finalizeHeaders._msg.countHdr "Subject" = 2
    ∧ c1Builder.finalizeHeaders.finalizeHeaders._msg.countHdr "Reply-To" = 2 := by
  refine ⟨by decide, by decide, by decide, by decide, by decide, by decide⟩

/-- C3 counterexample: with `dev_mode` false, a transport-level network
failure — the TCP connect raising `ConnectionRefusedError`, which is not
in the `SMTPException` family — propagates out of `send()` instead of
being converted to a `False` return. -/
theorem c3_network_failure_propagates :
    ((SMTPEmailService.init settingsProd).recipients ["a@example.com"]).send
        refusedTransport false
      = .error (.osError "Connection refused") := by
  decide

/-- C3 (amended): with `dev_mode` false, `send()` converts every
`SMTPException`-family delivery failure (authentication rejection,
refused recipient, protocol error) to a `False` return instead of
propagating it, and returns `True` when the transport session succeeds;
only errors outside the `SMTPException` family propagate. -/
theorem c3_smtp_errors_swallowed (svc : SMTPEmailService) (t : SMTPTransport)
    (debug : Bool) (m : String) (hdev : svc.settings.dev_mode = false) :
    ((runTransport t).2 = some (.smtpException m) →
       svc.send t debug = .ok (svc.finalizeHeaders, false, (runTransport t).1))
    ∧ ((runTransport t).2 = none →
       svc.send t debug = .ok (svc.finalizeHeaders, true, (runTransport t).1)) := by
  rcases hrt : runTransport t with ⟨ops, err⟩
  constructor
  · intro herr
    simp only [hrt] at herr
    simp [SMTPEmailService.send, hdev, hrt, herr]
  · intro herr
    simp only [hrt] at herr
    simp [SMTPEmailService.send, hdev, hrt, herr]

/-- C3 witness: an authentication rejection (an `SMTPException`) makes
`send()` return `False` after connect, starttls and the failed login. -/
theorem c3_smtp_errors_swallowed_witness :
    (SMTPEmailService.init settingsProd).send authRejectTransport false
      = .ok ((SMTPEmailService.init settingsProd).finalizeHeaders, false,
             [NetOp.connect, NetOp.starttls, NetOp.login]) :=
  (c3_smtp_errors_swallowed (SMTPEmailService.init settingsProd)
      authRejectTransport false "auth rejected" rfl).1 rfl

/-- C5: `get_inbox()` and `store(...)` raise a connection-state error
whenever the session is not open: before `__enter__` the connection field
is still `None` and the facade raises its own `ConnectionError`; after
`__exit__` the retained handle is in the LOGOUT state and the channel
rejects the command as illegal in that state. -/
theorem c5_ops_require_open_session (svc : IMAPEmailService) (env : IMAPEnv)
    (ms cmd fl : String)
    (h : svc.connection = none ∨
         ∃ c, svc.connection = some c ∧ c.state = .LOGOUT) :
    isConnStateFailure (svc.store env ms cmd fl) = true
    ∧ isConnStateFailure (svc.get_inbox env) = true := by
  rcases h with h | ⟨c, hc, hs⟩
  · constructor <;>
      simp [IMAPEmailService.store, IMAPEmailService.get_inbox, h,
            isConnStateFailure, PyErr.isConnStateError]
  · constructor <;>
      simp [IMAPEmailService.store, IMAPEmailService.get_inbox, hc, hs,
            IMAP4SSL.storeCmd, IMAP4SSL.selectCmd, Except.map,
            isConnStateFailure, PyErr.isConnStateError]

/-- C5 witness: on a freshly constructed service (session never opened),
both operations fail with a connection-state error. -/
theorem c5_ops_require_open_session_witness :
    isConnStateFailure
        ((IMAPEmailService.init settingsProd).store imapEnv0 "1" "+FLAGS" "\\Seen")
      = true
    ∧ isConnStateFailure ((IMAPEmailService.init settingsProd).get_inbox imapEnv0)
      = true :=
  c5_ops_require_open_session (IMAPEmailService.init settingsProd) imapEnv0
    "1" "+FLAGS" "\\Seen" (Or.inl rfl)

/-- C6: on every exit of the scoped session — whatever the body's outcome,
a normal value or an uncaught exception — `__exit__` runs: it closes the
mailbox selection first exactly when the connection is in the SELECTED
state, and then issues logout exactly once. -/
theorem c6_exit_closes_then_logs_out {α : Type} (conn : IMAP4SSL)
    (body : IMAP4SSL → BodyOutcome α × IMAP4SSL × List ChannelOp) :
    (runWithSession conn body).2
      = (body conn).2.2 ++ imapExitOps (body conn).2.1
    ∧ (imapExitOps (body conn).2.1).count ChannelOp.logout = 1
    ∧ ((body conn).2.1.state = .SELECTED →
        imapExitOps (body conn).2.1 = [ChannelOp.close, ChannelOp.logout])
    ∧ ((body conn).2.1.state ≠ .SELECTED →
        imapExitOps (body conn).2.1 = [ChannelOp.logout]) := by
  rcases hb : body conn with ⟨r, c2, tr⟩
  refine ⟨by simp [runWithSession, hb], ?_, ?_, ?_⟩ <;>
    by_cases hs : c2.state = .SELECTED <;>
      simp [imapExitOps, hb, hs, List.count_cons]

/-- C6 witness: a session body that raises, with the mailbox selected,
still produces the exit trace close-then-logout. -/
theorem c6_exit_closes_then_logs_out_witness :
    (runWithSession ⟨IMAPState.SELECTED⟩
        (fun c => (BodyOutcome.exn (α := Unit) (PyErr.imapError "boom"), c,
                   ([] : List ChannelOp)))).2
      = [ChannelOp.close, ChannelOp.logout] := by
  have h := c6_exit_closes_then_logs_out ⟨IMAPState.SELECTED⟩
    (fun c => (BodyOutcome.exn (α := Unit) (PyErr.imapError "boom"), c,
               ([] : List ChannelOp)))
  rw [h.1, h.2.2.1 rfl]
  rfl

/-- C8: two `recipients()` calls yield a recipient set equal to the union
of the two lists' addresses; the message carries exactly one `To` header
line, whose value is that union (each address exactly once, since the
value is the comma-join of a set); the second call replaced the first
header value rather than appending a second line. -/
theorem c8_recipients_union_replace (s : EmailServiceSettings)
    (l1 l2 : List String) :
    (((SMTPEmailService.init s).recipients l1).recipients l2)._recipients
      = l1.toFinset ∪ l2.toFinset
    ∧ (((SMTPEmailService.init s).recipients l1).recipients l2)._msg.countHdr "To"
      = 1
    ∧ (((SMTPEmailService.init s).recipients l1).recipients l2)._msg.headers.filter
        (fun p => hdrEq p.1 "To")
      = [("To", HVal.addrs (l1.toFinset ∪ l2.toFinset))] := by
  refine ⟨?_, ?_, ?_⟩ <;>
    simp [SMTPEmailService.init, SMTPEmailService.recipients,
          MIMEMultipart.fresh, MIMEMultipart.containsHdr,
          MIMEMultipart.add_header, MIMEMultipart.countHdr,
          replaceFirstHdr, hdrEq, lowerChar]

end EmailSender
